import Mathlib

set_option maxRecDepth 100000

/-!
Shallow embedding of the Offers365 product-resolution pipeline
(`src/server/routes.ts`, the richer variant, and `src/unnamed/part_006`,
the simpler variant) together with proofs of the specification claims.

Strings are modelled as Lean `String`/`List Char`.  JavaScript string
truthiness (`""`, `null`/`undefined` are falsy) is modelled explicitly.
Network calls are modelled by an explicit environment that supplies the
outcome of each upstream call; the pipeline functions are deterministic
functions of their inputs and that environment.
-/

/-! ## JavaScript value helpers -/

/-- Truthiness of a JS `string | null | undefined` value modelled as
`Option String`: `null`/`undefined` and `""` are falsy. -/
def jsTruthy : Option String → Bool
  | none => false
  | some s => s ≠ ""

/-- JS `a || b` for `a : string | null`, `b : string`: returns `b` when `a`
is falsy. -/
def jsOrD (a : Option String) (b : String) : String :=
  if jsTruthy a then a.getD b else b

/-- JS `a || b` for two `string | null` values. -/
def jsOrO (a b : Option String) : Option String :=
  if jsTruthy a then a else b

/-- JS `a || b` where both sides are `string | null` and the result feeds a
further truthiness test (used for `extractProductId(finalUrl) || extractProductId(url)`). -/
def jsOrOpt (a b : Option String) : Option String :=
  if jsTruthy a then a else b

/-! ## A tiny JavaScript-regex engine

Only the constructs used by the source regexes are embedded: literal
strings, single-character classes, ordered alternation, greedy and lazy
counted repetition, one capturing group per pattern, the word boundary
assertion and the end-of-input anchor.  Matching follows JavaScript
semantics: leftmost starting position first, then backtracking order
(greedy quantifiers prefer longer iterations, lazy ones shorter, ordered
alternation prefers the left branch). -/

/-- Regex abstract syntax. -/
inductive Re where
  /-- a single-character class given by a predicate -/
  | cls : (Char → Bool) → Re
  /-- a literal character sequence -/
  | str : List Char → Re
  | seq : Re → Re → Re
  /-- ordered alternation, left branch preferred -/
  | alt : Re → Re → Re
  /-- the (single) capturing group of the pattern -/
  | grp : Re → Re
  /-- repetition: minimum count, optional maximum, lazy flag, body -/
  | rep : Nat → Option Nat → Bool → Re → Re
  /-- the JS `\b` word-boundary assertion -/
  | wordB : Re
  /-- the JS `$` anchor (no multiline flag: end of input) -/
  | eos : Re

/-- Matcher state: the character just before the current position (for
`\b`), the remaining input, and the capture of group 1 if it has matched. -/
structure MSt where
  pre : Option Char
  rest : List Char
  grp1 : Option (List Char)
deriving Repr

/-- JS `\w`: `[A-Za-z0-9_]`. -/
def isWordChar (c : Char) : Bool :=
  ('a' ≤ c && c ≤ 'z') || ('A' ≤ c && c ≤ 'Z') || ('0' ≤ c && c ≤ '9') || c = '_'

def isWordO : Option Char → Bool
  | none => false
  | some c => isWordChar c

/-- Runs a regex from a state, returning the list of possible successor
states in JS backtracking priority order.  `fuel` bounds the recursion
depth; it is chosen large enough at the top level (every quantifier body in
the embedded patterns consumes at least one character, and an iteration
that consumes nothing is cut off, as a JS engine also terminates such
loops). -/
def mrun : Nat → Re → MSt → List MSt
  | 0, _, _ => []
  | fuel + 1, re, st =>
    match re with
    | .cls p =>
      match st.rest with
      | [] => []
      | c :: cs => if p c then [⟨some c, cs, st.grp1⟩] else []
    | .str l =>
      if l.isPrefixOf st.rest then
        [⟨(l.getLast?).orElse (fun _ => st.pre), st.rest.drop l.length, st.grp1⟩]
      else []
    | .seq a b => (mrun fuel a st).flatMap (fun st2 => mrun fuel b st2)
    | .alt a b => mrun fuel a st ++ mrun fuel b st
    | .grp r =>
      (mrun fuel r st).map (fun st2 =>
        ⟨st2.pre, st2.rest, some (st.rest.take (st.rest.length - st2.rest.length))⟩)
    | .wordB => if isWordO st.pre != isWordO st.rest.head? then [st] else []
    | .eos => if st.rest.isEmpty then [st] else []
    | .rep lo hi lz r =>
      match lo, hi with
      | 0, some 0 => [st]
      | 0, _ =>
        let step :=
          (mrun fuel r st).flatMap (fun st2 =>
            if st2.rest.length < st.rest.length then
              mrun fuel (.rep 0 (hi.map (fun h => h - 1)) lz r) st2
            else [])
        if lz then st :: step else step ++ [st]
      | l + 1, _ =>
        (mrun fuel r st).flatMap (fun st2 =>
          mrun fuel (.rep l (hi.map (fun h => h - 1)) lz r) st2)

/-- Result of a successful match: the full matched substring (`match[0]`)
and the group-1 capture (`match[1]`) when the group participated. -/
structure MatchRes where
  full : List Char
  grp1 : Option (List Char)
deriving Repr, DecidableEq

/-- Fuel used by `firstMatch`: generous bound on backtracking depth for the
embedded patterns (all of size well below 64). -/
def reFuel (n : Nat) : Nat := (n + 2) * 64

/-- Scans start positions left to right (JS `String.prototype.match` with a
non-global regex) and returns the first match. -/
def firstMatchAux (fuel : Nat) (re : Re) : Option Char → List Char → Option MatchRes
  | pre, s =>
    match mrun fuel re ⟨pre, s, none⟩ with
    | st :: _ => some ⟨s.take (s.length - st.rest.length), st.grp1⟩
    | [] =>
      match s with
      | [] => none
      | c :: cs => firstMatchAux fuel re (some c) cs

def firstMatch (re : Re) (s : List Char) : Option MatchRes :=
  firstMatchAux (reFuel s.length) re none s

/-- Match with the JS `g` flag: all non-overlapping matches, each search
resuming after the end of the previous match (an empty match advances one
character, as a JS engine does). -/
def allMatchesAux (fuelRe : Nat) (re : Re) : Nat → Option Char → List Char → List (List Char)
  | 0, _, _ => []
  | fuel + 1, pre, s =>
    match mrun fuelRe re ⟨pre, s, none⟩ with
    | st :: _ =>
      let m := s.take (s.length - st.rest.length)
      if m.isEmpty then
        match s with
        | [] => []
        | c :: cs => allMatchesAux fuelRe re fuel (some c) cs
      else m :: allMatchesAux fuelRe re fuel st.pre st.rest
    | [] =>
      match s with
      | [] => []
      | c :: cs => allMatchesAux fuelRe re fuel (some c) cs

def allMatches (re : Re) (s : List Char) : List (List Char) :=
  allMatchesAux (reFuel s.length) re (s.length + 1) none s

/-! ## Character classes of the source regexes -/

/-- the class `\d`. -/
def isDigitCh (c : Char) : Bool := '0' ≤ c && c ≤ '9'

/-- the class `[?&]`. -/
def isQAmp (c : Char) : Bool := c = '?' || c = '&'

/-- the class `[^/]`. -/
def isNotSlash (c : Char) : Bool := c ≠ '/'

/-- JS `.` (no `s` flag): any character except a line terminator. -/
def isDotCh (c : Char) : Bool :=
  c ≠ '\n' && c ≠ '\r' && c ≠ Char.ofNat 0x2028 && c ≠ Char.ofNat 0x2029

/-- the class `[a-z0-9]`. -/
def isLowerAlnum (c : Char) : Bool := ('a' ≤ c && c ≤ 'z') || ('0' ≤ c && c ≤ '9')

/-- the class `[a-zA-Z]`. -/
def isAlphaCh (c : Char) : Bool := ('a' ≤ c && c ≤ 'z') || ('A' ≤ c && c ≤ 'Z')

/-- the class `[$-_@.&+]`: the range `$`–`_` (0x24–0x5F) plus `@ . & +`
(all of which already lie in the range). -/
def isDollarToUnderscore (c : Char) : Bool :=
  ('$' ≤ c && c ≤ '_') || c = '@' || c = '.' || c = '&' || c = '+'

/-- the class `[!*\(\),]`. -/
def isBangStar (c : Char) : Bool :=
  c = '!' || c = '*' || c = '(' || c = ')' || c = ','

/-- the class `[0-9a-fA-F]`. -/
def isHexCh (c : Char) : Bool :=
  ('0' ≤ c && c ≤ '9') || ('a' ≤ c && c ≤ 'f') || ('A' ≤ c && c ≤ 'F')

/-! ## Regex constructors mirroring the source patterns -/

def lit (s : String) : Re := .str s.toList

def cat : List Re → Re
  | [] => .str []
  | [r] => r
  | r :: rs => .seq r (cat rs)

/-- the pattern `(\d+)`: the capturing group used by every product-id pattern. -/
def grpDigits : Re := .grp (.rep 1 none false (.cls isDigitCh))

/-- the quantifier `x?` (greedy). -/
def opt (r : Re) : Re := .rep 0 (some 1) false r

/-- the quantifier `.*?` (lazy). -/
def lazyDotStar : Re := .rep 0 none true (.cls isDotCh)

/-- the URL-shaped-substring pattern
`https?:\/\/(?:[a-zA-Z]|[0-9]|[$-_@.&+]|[!*\(\),]|(?:%[0-9a-fA-F][0-9a-fA-F]))+`. -/
def urlShapeRe : Re :=
  cat [lit "http", opt (lit "s"), lit "://",
    .rep 1 none false
      (.alt (.cls isAlphaCh)
        (.alt (.cls isDigitCh)
          (.alt (.cls isDollarToUnderscore)
            (.alt (.cls isBangStar)
              (cat [lit "%", .cls isHexCh, .cls isHexCh])))))]

/-- the pattern `\b\d\x7b10,20\x7d\b`: the numeric fallback of the richer variant. -/
def numericFallbackRe : Re :=
  cat [.wordB, .rep 10 (some 20) false (.cls isDigitCh), .wordB]

/-- JS `String.prototype.includes`. -/
def containsStr (s sub : String) : Bool :=
  (s.toList.enum.any (fun p => sub.toList.isPrefixOf (s.toList.drop p.1)))
  || sub.toList.isEmpty

namespace Routes

/-- the ordered pattern list of `extractProductId` in `src/server/routes.ts`:
`[?&]productIds?=(\d+)`, `\/item\/(\d+)\.(?:html|htm)`, `\/item\/(\d+)(?:\?|$)`,
`\/product\/(\d+)`, `\/i\/(\d+)`, `\/p\/[^/]+\/index\.html[?&]productIds?=(\d+)`,
`\/ssr\/.*?[?&]productIds?=(\d+)`, `\/[a-z0-9]+\.html\?.*?productId(?:s)?=(\d+)`. -/
def urlPatterns : List Re :=
  [ cat [.cls isQAmp, lit "productId", opt (lit "s"), lit "=", grpDigits],
    cat [lit "/item/", grpDigits, lit ".", .alt (lit "html") (lit "htm")],
    cat [lit "/item/", grpDigits, .alt (lit "?") .eos],
    cat [lit "/product/", grpDigits],
    cat [lit "/i/", grpDigits],
    cat [lit "/p/", .rep 1 none false (.cls isNotSlash), lit "/index.html",
      .cls isQAmp, lit "productId", opt (lit "s"), lit "=", grpDigits],
    cat [lit "/ssr/", lazyDotStar, .cls isQAmp, lit "productId", opt (lit "s"),
      lit "=", grpDigits],
    cat [lit "/", .rep 1 none false (.cls isLowerAlnum), lit ".html?",
      lazyDotStar, lit "productId", opt (lit "s"), lit "=", grpDigits] ]

/-- the `targetUrl` computed by `extractProductId`: the first URL-shaped
substring containing one of the three recognised domains, else the whole
text (`urls?.find(...) || text`). -/
def targetUrlOf (text : String) : List Char :=
  let urls := allMatches urlShapeRe text.toList
  match urls.find? (fun u =>
      containsStr ⟨u⟩ "aliexpress.com" || containsStr ⟨u⟩ "alix.live"
      || containsStr ⟨u⟩ "s.click.aliexpress.com") with
  | some u => u
  | none => text.toList

/-- the function `extractProductId` of `src/server/routes.ts`: domain-bearing URL
preselection, the eight ordered patterns, then the `\b\d{10,20}\b`
fallback over the whole raw text. -/
def extractProductId (text : String) : Option String :=
  let targetUrl := targetUrlOf text
  match urlPatterns.findSome? (fun p => firstMatch p targetUrl) with
  | some m => m.grp1.map (fun g => (⟨g⟩ : String))
  | none =>
    match firstMatch numericFallbackRe text.toList with
    | some m => some (⟨m.full⟩ : String)
    | none => none

end Routes

namespace Part006

/-- the ordered pattern list of `extractProductId` in `src/unnamed/part_006`:
`[?&]productIds=(\d+)`, `[?&]productId=(\d+)`, `\/item\/(\d+)\.(?:html|htm)`,
`\/item\/(\d+)(?:\?|$)`, `\/product\/(\d+)`, `\/i\/(\d+)`,
`\/p\/[^/]+\/index\.html[?&]productIds=(\d+)`, `\/ssr\/.*?[?&]productIds=(\d+)`,
`\/[a-z0-9]+\.html\?.*?productId(?:s)?=(\d+)`. -/
def patterns : List Re :=
  [ cat [.cls isQAmp, lit "productIds=", grpDigits],
    cat [.cls isQAmp, lit "productId=", grpDigits],
    cat [lit "/item/", grpDigits, lit ".", .alt (lit "html") (lit "htm")],
    cat [lit "/item/", grpDigits, .alt (lit "?") .eos],
    cat [lit "/product/", grpDigits],
    cat [lit "/i/", grpDigits],
    cat [lit "/p/", .rep 1 none false (.cls isNotSlash), lit "/index.html",
      .cls isQAmp, lit "productIds=", grpDigits],
    cat [lit "/ssr/", lazyDotStar, .cls isQAmp, lit "productIds=", grpDigits],
    cat [lit "/", .rep 1 none false (.cls isLowerAlnum), lit ".html?",
      lazyDotStar, lit "productId", opt (lit "s"), lit "=", grpDigits] ]

/-- the function `extractProductId` of `src/unnamed/part_006`: the nine ordered patterns
against the whole text, no URL preselection and no numeric fallback. -/
def extractProductId (text : String) : Option String :=
  match patterns.findSome? (fun p => firstMatch p text.toList) with
  | some m => m.grp1.map (fun g => (⟨g⟩ : String))
  | none => none

end Part006

/-! ## SHA-256, HMAC-SHA256 and the API signature

Node's `crypto.createHmac("sha256", secret).update(s).digest("hex")` is
embedded by a direct implementation of FIPS 180-4 SHA-256 and RFC 2104
HMAC over byte lists (bytes as `Nat < 256`, 32-bit words as `Nat` reduced
modulo `2^32`). -/

namespace Sha256

def w32 (n : Nat) : Nat := n % 4294967296

def rotr (n x : Nat) : Nat := w32 ((x >>> n) ||| (x <<< (32 - n)))

def bnot32 (x : Nat) : Nat := x ^^^ 4294967295

def smallSig0 (x : Nat) : Nat := rotr 7 x ^^^ rotr 18 x ^^^ (x >>> 3)
def smallSig1 (x : Nat) : Nat := rotr 17 x ^^^ rotr 19 x ^^^ (x >>> 10)
def bigSig0 (x : Nat) : Nat := rotr 2 x ^^^ rotr 13 x ^^^ rotr 22 x
def bigSig1 (x : Nat) : Nat := rotr 6 x ^^^ rotr 11 x ^^^ rotr 25 x
def chF (x y z : Nat) : Nat := (x &&& y) ^^^ (bnot32 x &&& z)
def majF (x y z : Nat) : Nat := (x &&& y) ^^^ (x &&& z) ^^^ (y &&& z)

/-- the 64 round constants of FIPS 180-4 (the hex table rendered in
decimal: entry 0 is 0x428a2f98, entry 63 is 0xc67178f2). -/
def K : List Nat :=
  [1116352408, 1899447441, 3049323471, 3921009573, 961987163, 1508970993,
   2453635748, 2870763221, 3624381080, 310598401, 607225278, 1426881987,
   1925078388, 2162078206, 2614888103, 3248222580, 3835390401, 4022224774,
   264347078, 604807628, 770255983, 1249150122, 1555081692, 1996064986,
   2554220882, 2821834349, 2952996808, 3210313671, 3336571891, 3584528711,
   113926993, 338241895, 666307205, 773529912, 1294757372, 1396182291,
   1695183700, 1986661051, 2177026350, 2456956037, 2730485921, 2820302411,
   3259730800, 3345764771, 3516065817, 3600352804, 4094571909, 275423344,
   430227734, 506948616, 659060556, 883997877, 958139571, 1322822218,
   1537002063, 1747873779, 1955562222, 2024104815, 2227730452, 2361852424,
   2428436474, 2756734187, 3204031479, 3329325298]

/-- the initial hash value of FIPS 180-4 (decimal rendering of
0x6a09e667 ... 0x5be0cd19). -/
def H0 : List Nat :=
  [1779033703, 3144134277, 1013904242, 2773480762, 1359893119, 2600822924,
   528734635, 1541459225]

/-- big-endian 8-byte rendering of a natural number. -/
def be64 (n : Nat) : List Nat :=
  [w8 (n >>> 56), w8 (n >>> 48), w8 (n >>> 40), w8 (n >>> 32),
   w8 (n >>> 24), w8 (n >>> 16), w8 (n >>> 8), w8 n]
where w8 (x : Nat) : Nat := x % 256

/-- FIPS 180-4 padding: append `0x80`, zeros to 56 mod 64, then the bit
length as a big-endian 64-bit integer. -/
def pad (msg : List Nat) : List Nat :=
  let zeros := (64 - (msg.length + 9) % 64) % 64
  msg ++ 0x80 :: List.replicate zeros 0 ++ be64 (msg.length * 8)

/-- a big-endian 32-bit word from four bytes. -/
def word (a b c d : Nat) : Nat := ((a <<< 24) ||| (b <<< 16) ||| (c <<< 8) ||| d)

/-- splits a padded message into the list of 16-word blocks (the fuel is
an upper bound on the number of blocks; each step consumes 64 bytes). -/
def toBlocksAux : Nat → List Nat → List (List Nat)
  | 0, _ => []
  | fuel + 1, bytes =>
    if bytes.isEmpty then []
    else
      let block := bytes.take 64
      let words := (List.range 16).map (fun i =>
        word (block.getD (4 * i) 0) (block.getD (4 * i + 1) 0)
             (block.getD (4 * i + 2) 0) (block.getD (4 * i + 3) 0))
      words :: toBlocksAux fuel (bytes.drop 64)

def toBlocks (bytes : List Nat) : List (List Nat) :=
  toBlocksAux (bytes.length / 64 + 1) bytes

/-- the message schedule: extends 16 words to 64. -/
def schedule (ws : List Nat) : List Nat :=
  go ws 48
where
  go (w : List Nat) : Nat → List Nat
    | 0 => w
    | n + 1 =>
      let t := w.length
      let nw := w32 (smallSig1 (w.getD (t - 2) 0) + w.getD (t - 7) 0 +
                     smallSig0 (w.getD (t - 15) 0) + w.getD (t - 16) 0)
      go (w ++ [nw]) n

/-- one round of the compression function on the working variables. -/
def round (st : List Nat) (k w : Nat) : List Nat :=
  match st with
  | [a, b, c, d, e, f, g, h] =>
    let t1 := w32 (h + bigSig1 e + chF e f g + k + w)
    let t2 := w32 (bigSig0 a + majF a b c)
    [w32 (t1 + t2), a, b, c, w32 (d + t1), e, f, g]
  | _ => st

/-- processes one block: 64 rounds then feed-forward addition. -/
def compress (h : List Nat) (block : List Nat) : List Nat :=
  let ws := schedule block
  let fin := (K.zip ws).foldl (fun st kw => round st kw.1 kw.2) h
  (h.zip fin).map (fun p => w32 (p.1 + p.2))

/-- SHA-256 of a byte list, as a list of 32 bytes. -/
def sha256 (msg : List Nat) : List Nat :=
  let h := (toBlocks (pad msg)).foldl compress H0
  h.flatMap (fun x => [x >>> 24 % 256, x >>> 16 % 256, x >>> 8 % 256, x % 256])

/-- RFC 2104 HMAC-SHA256 (block size 64). -/
def hmacSha256 (key msg : List Nat) : List Nat :=
  let k0 := if 64 < key.length then sha256 key else key
  let kp := k0 ++ List.replicate (64 - k0.length) 0
  sha256 ((kp.map (fun b => b ^^^ 0x5c)) ++ sha256 ((kp.map (fun b => b ^^^ 0x36)) ++ msg))

/-- UTF-8 encoding of a string as a byte list. -/
def utf8 (s : String) : List Nat :=
  s.toList.flatMap (fun c =>
    let n := c.toNat
    if n < 0x80 then [n]
    else if n < 0x800 then [0xC0 ||| (n >>> 6), 0x80 ||| (n &&& 0x3F)]
    else if n < 0x10000 then
      [0xE0 ||| (n >>> 12), 0x80 ||| ((n >>> 6) &&& 0x3F), 0x80 ||| (n &&& 0x3F)]
    else
      [0xF0 ||| (n >>> 18), 0x80 ||| ((n >>> 12) &&& 0x3F),
       0x80 ||| ((n >>> 6) &&& 0x3F), 0x80 ||| (n &&& 0x3F)])

/-- uppercase hexadecimal rendering of a byte list (Node `digest("hex")`
followed by `.toUpperCase()`). -/
def hexUpper (bytes : List Nat) : String :=
  ⟨bytes.flatMap (fun b => [hexDigit (b >>> 4), hexDigit (b &&& 15)])⟩
where
  hexDigit (n : Nat) : Char :=
    if n < 10 then Char.ofNat ('0'.toNat + n) else Char.ofNat ('A'.toNat + n - 10)

end Sha256

/-- lexicographic comparison of character lists by code unit, the order
used by the JS default `Array.prototype.sort` on strings. -/
def lexLe : List Char → List Char → Bool
  | [], _ => true
  | _ :: _, [] => false
  | a :: as, b :: bs =>
    if a.toNat < b.toNat then true
    else if b.toNat < a.toNat then false
    else lexLe as bs

/-- string comparison lifted from `lexLe`. -/
def strLe (a b : String) : Bool := lexLe a.toList b.toList

/-- the function `generateApiSignature` (identical in both variants): sort the parameter
keys lexicographically, concatenate each `key + value` pair, HMAC-SHA256
with the secret, render as uppercase hex.  The JS parameter object is
modelled as an association list with distinct keys (JS object keys are
unique); `Object.keys(...).sort()` sorts by UTF-16 code units, which for
these strings agrees with `String` order (on distinct keys every sort
produces the same, unique, sorted arrangement). -/
def generateApiSignature (params : List (String × String)) (secret : String) : String :=
  let sortedKeys := (params.map Prod.fst).insertionSort (fun a b => strLe a b = true)
  let paramString := String.join (sortedKeys.map (fun k => k ++ ((params.lookup k).getD "")))
  Sha256.hexUpper (Sha256.hmacSha256 (Sha256.utf8 secret) (Sha256.utf8 paramString))

example : Routes.extractProductId "https://www.aliexpress.com/item/1005006520824037.html" = some "1005006520824037" := by decide
example : Part006.extractProductId "https://www.aliexpress.com/item/1005006520824037.html" = some "1005006520824037" := by decide
example : Routes.extractProductId "12345678901" = some "12345678901" := by decide
example : Part006.extractProductId "12345678901" = none := by decide
example : Routes.extractProductId "nothing here" = none := by decide

/-! ## Decimal arithmetic for the discount computation

JS computes the discount with IEEE doubles; the embedding uses exact
fractions (`Int` numerator, positive `Nat` denominator, not necessarily
reduced — reduction is irrelevant to the rendered result).  For the
decimal price strings of the specification scenarios the two agree. -/

structure Frac where
  num : Int
  den : Nat
deriving Repr, DecidableEq

namespace Frac

def ofNat (n : Nat) : Frac := ⟨n, 1⟩

def sub (a b : Frac) : Frac := ⟨a.num * b.den - b.num * a.den, a.den * b.den⟩

def mul (a b : Frac) : Frac := ⟨a.num * b.num, a.den * b.den⟩

/-- division, keeping the denominator a natural number by moving the sign
of the divisor into the numerator. -/
def div (a b : Frac) : Frac := ⟨a.num * b.den * b.num.sign, a.den * b.num.natAbs⟩

/-- the JS test `x > 0`. -/
def isPos (f : Frac) : Bool := 0 < f.num

end Frac

/-- digit-list value. -/
def digitsToNat (l : List Char) : Nat :=
  l.foldl (fun acc c => acc * 10 + (c.toNat - '0'.toNat)) 0

/-- JS `parseFloat` restricted to its use site: the argument has already
been cleaned by `.replace(/[^0-9.]/g, "")`, so it consists of digits and
dots only.  `parseFloat` takes the longest valid decimal prefix
(`digits [. digits]`), and yields `NaN` (here `none`) when there is none. -/
def parseCleaned (s : List Char) : Option Frac :=
  let ip := s.takeWhile isDigitCh
  let rest := s.drop ip.length
  match rest with
  | '.' :: rest2 =>
    let fp := rest2.takeWhile isDigitCh
    if ip.isEmpty && fp.isEmpty then none
    else some ⟨digitsToNat ip * 10 ^ fp.length + digitsToNat fp, 10 ^ fp.length⟩
  | _ => if ip.isEmpty then none else some ⟨digitsToNat ip, 1⟩

/-- the cleaning step `.toString().replace(/[^0-9.]/g, "")`. -/
def cleanNum (s : String) : List Char :=
  s.toList.filter (fun c => isDigitCh c || c = '.')

/-- decimal rendering of a natural number. -/
def natToStrAux : Nat → Nat → List Char → List Char
  | 0, _, acc => acc
  | fuel + 1, n, acc =>
    if n < 10 then Char.ofNat ('0'.toNat + n) :: acc
    else natToStrAux fuel (n / 10) (Char.ofNat ('0'.toNat + n % 10) :: acc)

def natToStr (n : Nat) : String := ⟨natToStrAux (n + 1) n []⟩

/-- JS `Number.prototype.toFixed(1)`: the integer `n` with `n/10` closest
to the value, ties towards the larger `n`, i.e. `n = ⌊10x + 1/2⌋`. -/
def toFixed1 (f : Frac) : String :=
  let n : Int := Int.fdiv (f.num * 20 + f.den) (2 * f.den)
  (if n < 0 then "-" else "") ++ natToStr (n.natAbs / 10) ++ "." ++ natToStr (n.natAbs % 10)

/-- JS `Number.prototype.toFixed(0)`: `n = ⌊x + 1/2⌋`. -/
def toFixed0 (f : Frac) : String :=
  let n : Int := Int.fdiv (f.num * 2 + f.den) (2 * f.den)
  (if n < 0 then "-" else "") ++ natToStr n.natAbs

/-- JS `a || b` on two plain strings. -/
def jsOrS (a b : String) : String := if a = "" then b else a

/-! ## The affiliate "product detail" API call

The upstream JSON is opaque to this code beyond the fields it reads; the
outcome of the call is modelled as either an exception (network or JSON
failure), an `error_response` payload, a missing/empty product array, or a
product object whose read fields are `Option String` (`none` = absent or
JS `undefined`/`null`; `some ""` = present but empty, also falsy). -/

structure ApiProduct where
  target_sale_price : Option String := none
  app_sale_price : Option String := none
  target_original_price : Option String := none
  original_price : Option String := none
  target_discount : Option String := none
  shop_url : Option String := none
  product_main_image_url : Option String := none
  first_image_url : Option String := none
  product_score : Option String := none
  evaluate_rate : Option String := none
  shipping_fees : Option String := none
  product_title : Option String := none
  shop_name : Option String := none
  first_level_category_name : Option String := none
  commission_rate : Option String := none
  lastest_volume : Option String := none
deriving Repr, DecidableEq

/-- outcome of the `aliexpress.affiliate.productdetail.get` call. -/
inductive ApiNet where
  | exn
  | errorResponse (msg : Option String)
  | noProducts
  | ok (product : ApiProduct)
deriving Repr

namespace Routes

/-- the discount branch of `getProductDetailsFromApi` (routes.ts lines
272–285): `product.target_discount || ""`, then, when that is falsy and
both prices are present, `(((original - sale) / original) * 100).toFixed(1) + "%"`
guarded by `original > 0 && sale > 0` (a `NaN` parse fails the guard). -/
def computeDiscount (target_discount : Option String) (originalPrice salePrice : String) : String :=
  let discount := jsOrD target_discount ""
  if discount = "" && originalPrice != "N/A" && salePrice != "N/A" then
    match parseCleaned (cleanNum originalPrice), parseCleaned (cleanNum salePrice) with
    | some original, some sale =>
      if original.isPos && sale.isPos then
        toFixed1 (((original.sub sale).div original).mul (Frac.ofNat 100)) ++ "%"
      else discount
    | _, _ => discount
  else discount

/-- the part of a string after the first occurrence of a separator
(JS `s.split(sep)[1]` followed by `[0]`-projections of further splits,
which only inspect this segment up to the next separator). -/
def afterFirst : List Char → List Char → List Char
  | [], _ => []
  | s@(_ :: rest), sep =>
    if sep.isPrefixOf s then s.drop sep.length else afterFirst rest sep

/-- the shop-URL normalization of `getProductDetailsFromApi`: when the URL
contains `/store/`, extract the store id
(`shopUrl.split('/store/')[1].split('/')[0].split('?')[0]`) and rebuild a
canonical mobile-store URL. -/
def normalizeShopUrl (shopUrl : String) : String :=
  if containsStr shopUrl "/store/" then
    let storeId : String :=
      ⟨((afterFirst shopUrl.toList "/store/".toList).takeWhile (fun c => c ≠ '/')).takeWhile
        (fun c => c ≠ '?')⟩
    "https://m.aliexpress.com/store/" ++ storeId ++ "?shopId=" ++ storeId
  else shopUrl

/-- the metadata record assembled by the richer variant (the fields of its
`productData` object). -/
structure ProductData where
  title : String
  price : String
  originalPrice : String
  discount : String
  storeName : String
  evaluateRate : String
  shopUrl : String
  categoryName : String
  commissionRate : String
  orders : String
  imageUrl : Option String
  shipping_fees : String
deriving Repr, DecidableEq

/-- the function `getProductDetailsFromApi` of `src/server/routes.ts` as a function of
the call outcome.  An exception, an `error_response` payload or an
empty/missing product array all end in `throw`, modelled as `.error ()`. -/
def getProductDetailsFromApi (net : ApiNet) : Except Unit ProductData :=
  match net with
  | .exn => .error ()
  | .errorResponse _ => .error ()
  | .noProducts => .error ()
  | .ok product =>
    let salePrice := jsOrD (jsOrO product.target_sale_price product.app_sale_price) "N/A"
    let originalPrice := jsOrD (jsOrO product.target_original_price product.original_price) "N/A"
    let discount := computeDiscount product.target_discount originalPrice salePrice
    let shopUrl := normalizeShopUrl (jsOrD product.shop_url "N/A")
    let imageUrl := jsOrO product.product_main_image_url product.first_image_url
    let evaluateRate := jsOrD (jsOrO product.product_score product.evaluate_rate) "N/A"
    let shipping_fees := jsOrD product.shipping_fees "Free Shipping"
    .ok {
      title := jsOrD product.product_title "Unknown Product"
      price := salePrice ++ " USD"
      originalPrice := originalPrice ++ " USD"
      discount := jsOrS discount "0%"
      storeName := jsOrD product.shop_name "Unknown Store"
      evaluateRate := evaluateRate
      shopUrl := shopUrl
      categoryName := jsOrD product.first_level_category_name "N/A"
      commissionRate := jsOrD product.commission_rate "N/A"
      orders := jsOrD product.lastest_volume "N/A"
      imageUrl := imageUrl
      shipping_fees := shipping_fees }

end Routes

namespace Part006

/-- the discount branch of `getProductDetailsFromApi` in
`src/unnamed/part_006`: identical to the richer variant except that the
percentage is rendered with `toFixed(0)`. -/
def computeDiscount (target_discount : Option String) (originalPrice salePrice : String) : String :=
  let discount := jsOrD target_discount ""
  if discount = "" && originalPrice != "N/A" && salePrice != "N/A" then
    match parseCleaned (cleanNum originalPrice), parseCleaned (cleanNum salePrice) with
    | some original, some sale =>
      if original.isPos && sale.isPos then
        toFixed0 (((original.sub sale).div original).mul (Frac.ofNat 100)) ++ "%"
      else discount
    | _, _ => discount
  else discount

/-- the metadata record assembled by the simpler variant. -/
structure ProductData where
  title : String
  price : String
  originalPrice : String
  discount : String
  storeName : String
  imageUrl : Option String
deriving Repr, DecidableEq

/-- the function `getProductDetailsFromApi` of `src/unnamed/part_006` as a function of
the call outcome.  Note the `$`-prefixed price templates and the constant
`imageUrl: null`. -/
def getProductDetailsFromApi (net : ApiNet) : Except Unit ProductData :=
  match net with
  | .exn => .error ()
  | .errorResponse _ => .error ()
  | .noProducts => .error ()
  | .ok product =>
    let salePrice := jsOrD (jsOrO product.target_sale_price product.app_sale_price) "N/A"
    let originalPrice := jsOrD (jsOrO product.target_original_price product.original_price) "N/A"
    let discount := computeDiscount product.target_discount originalPrice salePrice
    .ok {
      title := jsOrD product.product_title "Unknown Product"
      price := "$" ++ salePrice ++ " USD"
      originalPrice := "$" ++ originalPrice ++ " USD"
      discount := jsOrS discount "0%"
      storeName := jsOrD product.shop_name "Unknown Store"
      imageUrl := none }

end Part006

example : Routes.computeDiscount none "$40.00 USD" "$20.00 USD" = "50.0%" := by decide
example : Part006.computeDiscount none "$40.00 USD" "$20.00 USD" = "50%" := by decide
example : Routes.computeDiscount none "N/A" "$20.00 USD" = "" := by decide
example : Routes.computeDiscount none "$0.00 USD" "$20.00 USD" = "" := by decide
example : Routes.computeDiscount (some "55%") "$40.00 USD" "$20.00 USD" = "55%" := by decide
example : Routes.computeDiscount none "$..." "$20.00 USD" = "" := by decide
example : Routes.normalizeShopUrl "https://www.aliexpress.com/store/12345/x?y=1" = "https://m.aliexpress.com/store/12345?shopId=12345" := by decide

/-! ## The scrape fallback (`getProductDetails`)

The HTML page and the cheerio/regex extraction chains over it are external
to this code (network plus the cheerio library); the outcome of a scrape
is therefore modelled as either an exception or the raw values those
chains produced, and the embedding carries out everything the source does
with those values (entity decoding, truncation, trimming, protocol and
thumbnail normalization, placeholder defaulting). -/

/-- JS whitespace trimmed by `String.prototype.trim` (the characters that
occur in this pipeline). -/
def isJsWS (c : Char) : Bool :=
  c = ' ' || c = '\t' || c = '\n' || c = '\r' || c = Char.ofNat 11 || c = Char.ofNat 12

/-- JS `String.prototype.trim`. -/
def jsTrim (s : List Char) : List Char :=
  ((s.dropWhile isJsWS).reverse.dropWhile isJsWS).reverse

/-- global replacement of a literal (non-empty) pattern,
JS `s.replace(/pat/g, rep)`. -/
def replaceAllAux : Nat → List Char → List Char → List Char → List Char
  | 0, s, _, _ => s
  | fuel + 1, s, pat, rep =>
    match s with
    | [] => []
    | c :: rest =>
      if pat ≠ [] && pat.isPrefixOf s then rep ++ replaceAllAux fuel (s.drop pat.length) pat rep
      else c :: replaceAllAux fuel rest pat rep

def replaceAll (s pat rep : String) : String :=
  ⟨replaceAllAux (s.toList.length + 1) s.toList pat.toList rep.toList⟩

/-- variant of `firstMatchAux` that also reports the start index of the
match, for `String.prototype.replace`. -/
def firstMatchPosAux (fuel : Nat) (re : Re) : Nat → Option Char → List Char → Option (Nat × MatchRes)
  | idx, pre, s =>
    match mrun fuel re ⟨pre, s, none⟩ with
    | st :: _ => some (idx, ⟨s.take (s.length - st.rest.length), st.grp1⟩)
    | [] =>
      match s with
      | [] => none
      | c :: cs => firstMatchPosAux fuel re (idx + 1) (some c) cs

/-- JS `s.replace(re, "")` for a non-global regex: removes the first match. -/
def removeFirstMatch (re : Re) (s : List Char) : List Char :=
  match firstMatchPosAux (reFuel s.length) re 0 none s with
  | some (i, m) => s.take i ++ s.drop (i + m.full.length)
  | none => s

/-- the thumbnail-suffix pattern `_\d+x\d+\.(jpg|png|webp).*`. -/
def thumbRe : Re :=
  cat [lit "_", .rep 1 none false (.cls isDigitCh), lit "x",
    .rep 1 none false (.cls isDigitCh), lit ".",
    .grp (.alt (lit "jpg") (.alt (lit "png") (lit "webp"))),
    .rep 0 none false (.cls isDotCh)]

namespace Routes

/-- outcome of the scrape of the public product page, as consumed by the
richer variant: an exception, or the values of the `title` and `imageUrl`
locals after the extraction chains (inline-JSON blob, meta tags, CSS
selectors), where `""` stands for "nothing found" (and for JS `undefined`,
which the subsequent code treats identically: only truthiness and string
operations on truthy values are applied). -/
inductive ScrapeNet where
  | exn
  | page (titleRaw : String) (imageRaw : String)
deriving Repr

structure ScrapeResult where
  title : String
  imageUrl : Option String
deriving Repr, DecidableEq

/-- the title clean-up of `getProductDetails` (routes.ts lines 172–179):
entity decoding for `&amp; &quot; &lt; &gt;`, truncation to 250
characters, trimming. -/
def cleanTitle (title : String) : String :=
  if title ≠ "" then
    ⟨jsTrim ((replaceAll (replaceAll (replaceAll (replaceAll title
        "&amp;" "&") "&quot;" "\"") "&lt;" "<") "&gt;" ">").toList.take 250)⟩
  else title

/-- the image clean-up of `getProductDetails` (routes.ts lines 182–186):
protocol normalization of `//...` and removal of a thumbnail-size suffix. -/
def cleanImage (imageUrl : String) : String :=
  if imageUrl ≠ "" then
    let withProto :=
      if ['/', '/'].isPrefixOf imageUrl.toList then "https:" ++ imageUrl else imageUrl
    ⟨removeFirstMatch thumbRe withProto.toList⟩
  else imageUrl

/-- the function `getProductDetails` of `src/server/routes.ts`: total at its interface;
every failure path, including an exception, yields the constant
placeholder title, and the final `title || "AliExpress Product"` and
`imageUrl || null` normalizations always apply. -/
def getProductDetails (net : ScrapeNet) : ScrapeResult :=
  match net with
  | .exn => ⟨"AliExpress Product", none⟩
  | .page titleRaw imageRaw =>
    let title := cleanTitle titleRaw
    let image := cleanImage imageRaw
    ⟨jsOrS title "AliExpress Product", if image = "" then none else some image⟩

/-- the scrape backfill pass of the richer `/api/product` handler
(routes.ts lines 539–544): replace the title when it is empty or a known
placeholder, fill the image when it is falsy, touch nothing else. -/
def mergeScrape (pd : ProductData) (sd : ScrapeResult) : ProductData :=
  let pd1 :=
    if pd.title = "" || pd.title = "Unknown Product" || pd.title = "Unable to extract title"
    then { pd with title := sd.title } else pd
  if !jsTruthy pd1.imageUrl then { pd1 with imageUrl := sd.imageUrl } else pd1

end Routes

namespace Part006

/-- outcome of the scrape as consumed by the simpler variant: an exception
(fetch failure, non-ok status, body read failure), or the raw extraction
results: the `"subject":"..."` capture, the cheerio `$("title").text()`
value, the `"imagePath":"..."` capture and the `og:image` capture. -/
inductive ScrapeNet where
  | exn
  | page (subjectTitle : Option String) (cheerioTitle : String)
      (imagePath : Option String) (ogImage : Option String)
deriving Repr

structure ScrapeResult where
  title : String
  imageUrl : Option String
deriving Repr, DecidableEq

/-- the function `getProductDetails` of `src/unnamed/part_006`.  Note that the final
step is `title ? title.slice(0, 255).trim() : "Unable to extract title"`:
the trim happens after the truthiness test, so a whitespace-only scraped
title yields the empty string. -/
def getProductDetails (net : ScrapeNet) : ScrapeResult :=
  match net with
  | .exn => ⟨"Unable to extract title", none⟩
  | .page subjectTitle cheerioTitle imagePath ogImage =>
    let title : Option String :=
      if jsTruthy subjectTitle then subjectTitle
      else if cheerioTitle ≠ "" then some cheerioTitle else none
    let imageUrl : Option String :=
      match imagePath with
      | some ip => some (if "http".toList.isPrefixOf ip.toList then ip else "https:" ++ ip)
      | none => none
    let imageUrl : Option String :=
      if !jsTruthy imageUrl then
        match ogImage with
        | some og => some og
        | none => imageUrl
      else imageUrl
    let titleOut :=
      match title with
      | some t => if t ≠ "" then (⟨jsTrim (t.toList.take 255)⟩ : String) else "Unable to extract title"
      | none => "Unable to extract title"
    ⟨titleOut, imageUrl⟩

/-- the scrape backfill pass of the simpler `/api/product` handler
(part_006 lines 402–407): its title condition checks only the empty string
and `"Unknown Product"`. -/
def mergeScrape (pd : ProductData) (sd : ScrapeResult) : ProductData :=
  let pd1 :=
    if pd.title = "" || pd.title = "Unknown Product"
    then { pd with title := sd.title } else pd
  if !jsTruthy pd1.imageUrl then { pd1 with imageUrl := sd.imageUrl } else pd1

end Part006

example : Routes.getProductDetails (.page "" "") = ⟨"AliExpress Product", none⟩ := by decide
example : Routes.getProductDetails (.page "A &amp; B   " "//img.kf/a_50x50.jpg?x=1") =
    ⟨"A & B", some "https://img.kf/a"⟩ := by decide
example : Part006.getProductDetails (.page (some " ") "" none none) = ⟨"", none⟩ := by decide
example : Part006.getProductDetails .exn = ⟨"Unable to extract title", none⟩ := by decide

/-! ## Offer generation -/

/-- one entry of the fixed offer tables. -/
structure OfferDef where
  name : String
  url : String
deriving Repr, DecidableEq

/-- the `OfferItem` shape of both variants. -/
structure OfferItem where
  name : String
  link : String
  success : Bool
deriving Repr, DecidableEq

/-- outcome of one `aliexpress.affiliate.link.generate` call: an exception
anywhere in the call, a missing/empty `promotion_links` array, or the
`promotion_link` field of the first entry (itself possibly absent). -/
inductive LinkNet where
  | exn
  | noLinks
  | ok (promotionLink : Option String)
deriving Repr

/-- the function `generateAffiliateLink` (identical logic in both variants) as a
function of the call outcome: every exception is caught and becomes
`null`; an empty result list becomes `null`; otherwise the first
promotion link is returned. -/
def generateAffiliateLink (net : LinkNet) : Option String :=
  match net with
  | .exn => none
  | .noLinks => none
  | .ok l => l

/-- the fixed primary offer table (the identical literal table appears in
both `src/server/routes.ts` and `src/unnamed/part_006`). -/
def offersPrimary (productId : String) : List OfferDef :=
  [ ⟨"Coin Page Offer",
      "https://m.aliexpress.com/p/coin-index/index.html?_immersiveMode=true&productIds=" ++ productId⟩,
    ⟨"Direct Product Link",
      "https://www.aliexpress.com/item/" ++ productId ++ ".html?sourceType=620"⟩,
    ⟨"Super Deals",
      "https://www.aliexpress.com/item/" ++ productId ++ ".html?sourceType=562"⟩,
    ⟨"Big Save Discount",
      "https://www.aliexpress.com/item/" ++ productId ++ ".html?sourceType=680"⟩,
    ⟨"Limited Discount",
      "https://www.aliexpress.com/item/" ++ productId ++ ".html?sourceType=561"⟩,
    ⟨"Potential Discount",
      "https://www.aliexpress.com/item/" ++ productId ++ ".html?sourceType=504"⟩,
    ⟨"Bundle Direct",
      "https://www.aliexpress.com/item/" ++ productId ++ ".html?sourceType=570"⟩,
    ⟨"Bundle Deals Page",
      "https://www.aliexpress.com/ssr/300000512/BundleDeals2?&pha_manifest=ssr&productIds=" ++ productId⟩ ]

/-- one iteration of the offer loop (identical in both variants): one
primary attempt; a secondary attempt only when the primary result is
falsy; the item records the primary name, `affiliateLink || primaryUrl`
and `!!affiliateLink`.  The second component lists the source URLs passed
to `generateAffiliateLink`, in order. -/
def runOffer (env : String → LinkNet) (primary : OfferDef) (secondaryUrl : String) :
    OfferItem × List String :=
  let a1 := generateAffiliateLink (env primary.url)
  let affiliateLink := if jsTruthy a1 then a1 else generateAffiliateLink (env secondaryUrl)
  let calls := if jsTruthy a1 then [primary.url] else [primary.url, secondaryUrl]
  (⟨primary.name, jsOrD affiliateLink primary.url, jsTruthy affiliateLink⟩, calls)

namespace Routes

/-- the fixed secondary offer table of `src/server/routes.ts`: each entry
is the share-redirect wrapper URL around the corresponding primary target,
written out literally in the source. -/
def offersSecondary (productId : String) : List OfferDef :=
  [ ⟨"Coin Page Offer",
      "https://star.aliexpress.com/share/share.htm?redirectUrl=https://m.aliexpress.com/p/coin-index/index.html?_immersiveMode=true&productIds=" ++ productId⟩,
    ⟨"Direct Product Link",
      "https://star.aliexpress.com/share/share.htm?redirectUrl=https://www.aliexpress.com/item/" ++ productId ++ ".html?sourceType=620"⟩,
    ⟨"Super Deals",
      "https://star.aliexpress.com/share/share.htm?redirectUrl=https://www.aliexpress.com/item/" ++ productId ++ ".html?sourceType=562"⟩,
    ⟨"Big Save Discount",
      "https://star.aliexpress.com/share/share.htm?redirectUrl=https://www.aliexpress.com/item/" ++ productId ++ ".html?sourceType=680"⟩,
    ⟨"Limited Discount",
      "https://star.aliexpress.com/share/share.htm?redirectUrl=https://www.aliexpress.com/item/" ++ productId ++ ".html?sourceType=561"⟩,
    ⟨"Potential Discount",
      "https://star.aliexpress.com/share/share.htm?redirectUrl=https://www.aliexpress.com/item/" ++ productId ++ ".html?sourceType=504"⟩,
    ⟨"Bundle Direct",
      "https://star.aliexpress.com/share/share.htm?redirectUrl=https://www.aliexpress.com/item/" ++ productId ++ ".html?sourceType=570"⟩,
    ⟨"Bundle Deals Page",
      "https://star.aliexpress.com/share/share.htm?redirectUrl=https://www.aliexpress.com/ssr/300000512/BundleDeals2?&pha_manifest=ssr&productIds=" ++ productId⟩ ]

/-- the function `generateAllOffers` of `src/server/routes.ts`, instrumented with the
ordered list of `generateAffiliateLink` source URLs. -/
def generateAllOffersT (productId : String) (env : String → LinkNet) :
    List OfferItem × List String :=
  let rs := ((offersPrimary productId).zip (offersSecondary productId)).map
    (fun ps => runOffer env ps.1 ps.2.url)
  (rs.map Prod.fst, rs.flatMap Prod.snd)

def generateAllOffers (productId : String) (env : String → LinkNet) : List OfferItem :=
  (generateAllOffersT productId env).1

end Routes

/-- JS `encodeURIComponent`: unreserved characters pass through, the rest
are percent-encoded from their UTF-8 bytes with uppercase hex digits. -/
def encodeURIComponent (s : String) : String :=
  ⟨s.toList.flatMap (fun c =>
    if isLowerAlnum c || ('A' ≤ c && c ≤ 'Z') || c = '-' || c = '_' || c = '.'
        || c = '!' || c = '~' || c = '*' || c = Char.ofNat 39 || c = '(' || c = ')' then [c]
    else (Sha256.utf8 ⟨[c]⟩).flatMap (fun b => '%' :: (Sha256.hexUpper [b]).toList))⟩

namespace Part006

/-- the secondary URL list of `src/unnamed/part_006`: the share-redirect
wrapper mapped over the primary table with `encodeURIComponent`. -/
def offersSecondary (productId : String) : List String :=
  (offersPrimary productId).map (fun o =>
    "https://star.aliexpress.com/share/share.htm?redirectUrl=" ++ encodeURIComponent o.url)

/-- the function `generateAllOffers` of `src/unnamed/part_006`. -/
def generateAllOffersT (productId : String) (env : String → LinkNet) :
    List OfferItem × List String :=
  let primary := offersPrimary productId
  let secondary := offersSecondary productId
  let rs := (primary.zip secondary).map (fun ps => runOffer env ps.1 ps.2)
  (rs.map Prod.fst, rs.flatMap Prod.snd)

def generateAllOffers (productId : String) (env : String → LinkNet) : List OfferItem :=
  (generateAllOffersT productId env).1

end Part006

/-! ## The `/api/product` handler of the richer variant -/

structure ProductRequest where
  url : String
  appKey : String
  appSecret : String
  trackingId : String
deriving Repr, DecidableEq

namespace Routes

structure ProductResponse where
  id : String
  productId : String
  title : String
  imageUrl : Option String
  price : String
  originalPrice : String
  discount : String
  storeName : String
  evaluateRate : String
  shopUrl : String
  categoryName : String
  commissionRate : String
  orders : String
  shipping_fees : String
  searchedAt : String
  offers : List OfferItem
deriving Repr, DecidableEq

/-- the three response shapes the handler can produce. -/
inductive HResp where
  | ok (body : ProductResponse)
  | badRequest (message : String)
  | serverError (message : String)
deriving Repr, DecidableEq

def HResp.status : HResp → Nat
  | .ok _ => 200
  | .badRequest _ => 400
  | .serverError _ => 500

/-- a record of one upstream network call made while handling a request. -/
inductive NetCall where
  | redirect (url : String)
  | apiDetail
  | scrape
  | linkGen (url : String)
deriving Repr, DecidableEq

/-- the complete upstream environment of one request: the outcome of the
redirect resolution per candidate URL (`none` = fetch threw), of the
product-detail API call, of the scrape, and of each link-generation call
keyed by its `source_values` URL, plus the two clock readings. -/
structure Env where
  redirect : String → Option String
  api : ApiNet
  scrape : ScrapeNet
  link : String → LinkNet
  nowMs : String
  nowIso : String

/-- the function `resolveRedirects` of `src/server/routes.ts`: extract the first
URL-shaped substring (else use the input), follow redirects, and on a
fetch exception return the cleaned URL.  Also reports the network call it
made. -/
def resolveRedirectsT (redirect : String → Option String) (url : String) : String × NetCall :=
  let cleanUrl :=
    match firstMatch urlShapeRe url.toList with
    | some m => (⟨m.full⟩ : String)
    | none => url
  ((redirect cleanUrl).getD cleanUrl, .redirect cleanUrl)

/-- the `productData` defaults of the handler (routes.ts lines 511–524). -/
def defaultProductData : ProductData :=
  { title := "", price := "N/A", originalPrice := "N/A", discount := "0%",
    storeName := "Unknown Store", evaluateRate := "N/A", shopUrl := "N/A",
    categoryName := "N/A", commissionRate := "N/A", orders := "N/A",
    imageUrl := none, shipping_fees := "Free Shipping" }

/-- the `POST /api/product` handler of `src/server/routes.ts` as a function
of the request body and the upstream environment, paired with the ordered
list of upstream calls it makes.  The spread `{...productData, ...apiData}`
replaces every field (the two objects have the same field set), so the
API branch keeps `apiData` wholesale and the failure branch keeps the
defaults. -/
def handleProduct (req : ProductRequest) (env : Env) : HResp × List NetCall :=
  if req.url = "" then (.badRequest "URL is required", [])
  else if req.appKey = "" || req.appSecret = "" || req.trackingId = "" then
    (.badRequest "API credentials are required", [])
  else if !containsStr req.url "aliexpress.com" && !containsStr req.url "alix.live"
      && !containsStr req.url "s.click.aliexpress.com" then
    (.badRequest "Please provide a valid AliExpress URL", [])
  else
    let fr := resolveRedirectsT env.redirect req.url
    let pid := jsOrOpt (extractProductId fr.1) (extractProductId req.url)
    if !jsTruthy pid then (.badRequest "Could not extract product ID from URL", [fr.2])
    else
      let productId := pid.getD ""
      let productData :=
        match getProductDetailsFromApi env.api with
        | .ok apiData => apiData
        | .error _ => defaultProductData
      let pd := mergeScrape productData (getProductDetails env.scrape)
      let offers := generateAllOffersT productId env.link
      (.ok {
        id := productId ++ "-" ++ env.nowMs
        productId := productId
        title := pd.title
        imageUrl := pd.imageUrl
        price := pd.price
        originalPrice := pd.originalPrice
        discount := pd.discount
        storeName := pd.storeName
        evaluateRate := pd.evaluateRate
        shopUrl := pd.shopUrl
        categoryName := pd.categoryName
        commissionRate := pd.commissionRate
        orders := pd.orders
        shipping_fees := pd.shipping_fees
        searchedAt := env.nowIso
        offers := offers.1 },
       [fr.2, .apiDetail, .scrape] ++ offers.2.map NetCall.linkGen)

end Routes

/-! ## Helper definitions for the theorems -/

/-- the two-attempt affiliate-link result for one offer: the primary
result when truthy, else the secondary result. -/
def offerAttempt (env : String → LinkNet) (primaryUrl secondaryUrl : String) : Option String :=
  let a1 := generateAffiliateLink (env primaryUrl)
  if jsTruthy a1 then a1 else generateAffiliateLink (env secondaryUrl)

/-- the eight offer names, in their fixed documented order. -/
def offerNames : List String :=
  ["Coin Page Offer", "Direct Product Link", "Super Deals", "Big Save Discount",
   "Limited Discount", "Potential Discount", "Bundle Direct", "Bundle Deals Page"]

/-- whether a handler response is a 200 whose body has a non-empty title
(vacuously true for error responses). -/
def Routes.HResp.titleNonempty : Routes.HResp → Bool
  | .ok b => b.title ≠ ""
  | _ => true

/-- the 400 message selected by the handler's validation chain. -/
def Routes.validationMessage (req : ProductRequest) : String :=
  if req.url = "" then "URL is required"
  else if req.appKey = "" || req.appSecret = "" || req.trackingId = "" then
    "API credentials are required"
  else "Please provide a valid AliExpress URL"

/-- an environment in which every upstream call fails. -/
def Routes.envAllFail : Routes.Env :=
  { redirect := fun _ => none, api := .exn, scrape := .exn, link := fun _ => .exn,
    nowMs := "0", nowIso := "1970-01-01T00:00:00.000Z" }

/-- a well-formed request for a canonical item URL. -/
def reqCanonical : ProductRequest :=
  { url := "https://www.aliexpress.com/item/1005006520824037.html",
    appKey := "k", appSecret := "s", trackingId := "tid" }

/-! ## General lemmas -/

theorem append_ne_empty {a : String} (b : String) (h : a.data ≠ []) : a ++ b ≠ "" := by
  intro hc
  apply h
  have hd := congrArg String.data hc
  simp at hd
  exact hd.1

theorem jsOrS_ne_empty {a b : String} (h : b ≠ "") : jsOrS a b ≠ "" := by
  unfold jsOrS
  split
  · exact h
  · assumption

theorem jsTruthy_some_ne {s : String} (h : jsTruthy (some s) = true) : s ≠ "" := by
  simpa [jsTruthy] using h

/-- specification of one loop iteration of `generateAllOffers`: name from
the primary table, a non-empty link, the affiliate link exactly when an
attempt succeeded, the primary target URL otherwise. -/
theorem runOffer_spec (env : String → LinkNet) (p : OfferDef) (s : String)
    (hp : p.url ≠ "") :
    (runOffer env p s).1.name = p.name
    ∧ (runOffer env p s).1.link ≠ ""
    ∧ ((runOffer env p s).1.success = true →
        some (runOffer env p s).1.link = offerAttempt env p.url s)
    ∧ ((runOffer env p s).1.success = false → (runOffer env p s).1.link = p.url)
    ∧ (runOffer env p s).1.success = jsTruthy (offerAttempt env p.url s) := by
  unfold runOffer offerAttempt
  refine ⟨rfl, ?_, ?_, ?_, ?_⟩
  · dsimp only
    rcases hA : (if jsTruthy (generateAffiliateLink (env p.url)) then
        generateAffiliateLink (env p.url) else generateAffiliateLink (env s)) with _ | v
    · simpa [jsOrD, hA] using hp
    · by_cases hv : v = ""
      · simpa [jsOrD, hA, jsTruthy, hv] using hp
      · simp [jsOrD, hA, jsTruthy, hv]
  · intro hs
    dsimp only at hs ⊢
    rcases hA : (if jsTruthy (generateAffiliateLink (env p.url)) then
        generateAffiliateLink (env p.url) else generateAffiliateLink (env s)) with _ | v
    · rw [hA] at hs; simp [jsTruthy] at hs
    · rw [hA] at hs
      have hv : v ≠ "" := by simpa [jsTruthy] using hs
      simp [jsOrD, jsTruthy, hv]
  · intro hs
    dsimp only at hs ⊢
    rcases hA : (if jsTruthy (generateAffiliateLink (env p.url)) then
        generateAffiliateLink (env p.url) else generateAffiliateLink (env s)) with _ | v
    · simp [jsOrD, hA, jsTruthy]
    · rw [hA] at hs
      have hv : v = "" := by
        by_contra hv
        simp [jsTruthy, hv] at hs
      simp [jsOrD, hA, jsTruthy, hv]
  · rfl

theorem append3_ne_empty (a b c : String) (h : a.data ≠ []) : a ++ b ++ c ≠ "" := by
  apply append_ne_empty
  simp only [String.data_append]
  intro hc
  rcases List.append_eq_nil.mp hc with ⟨h1, _⟩
  exact h h1

theorem jsOrD_ne_empty (a : Option String) {b : String} (hb : b ≠ "") : jsOrD a b ≠ "" := by
  unfold jsOrD
  split
  · rename_i ht
    match a, ht with
    | some v, ht => exact fun hc => (jsTruthy_some_ne ht) hc
  · exact hb

/-- one loop iteration, written as a single equation. -/
theorem runOffer_eq (env : String → LinkNet) (p : OfferDef) (s : String) :
    (runOffer env p s).1 =
      ⟨p.name, jsOrD (offerAttempt env p.url s) p.url, jsTruthy (offerAttempt env p.url s)⟩ := rfl

/-- every primary target URL is non-empty (each is a non-empty literal
followed by the product id). -/
theorem offersPrimary_url_ne_empty (productId : String) :
    ∀ p ∈ offersPrimary productId, p.url ≠ "" := by
  intro p hp
  fin_cases hp
  · exact append_ne_empty _ (by decide)
  · exact append3_ne_empty _ _ _ (by decide)
  · exact append3_ne_empty _ _ _ (by decide)
  · exact append3_ne_empty _ _ _ (by decide)
  · exact append3_ne_empty _ _ _ (by decide)
  · exact append3_ne_empty _ _ _ (by decide)
  · exact append3_ne_empty _ _ _ (by decide)
  · exact append_ne_empty _ (by decide)

/-- C1: for every productId and every outcome of the upstream
affiliate-link calls, `generateAllOffers` (in both variants) returns
exactly the 8 offer items in the fixed documented name order, and,
positionally against the offer tables, every item's link is non-empty:
the obtained affiliate link (`jsOrD` of the two-attempt result) when
generation succeeded, otherwise the offer's primary target URL. -/
theorem c1_generateAllOffers_shape (productId : String) (env : String → LinkNet) :
    (Routes.generateAllOffers productId env).map OfferItem.name = offerNames
    ∧ (Part006.generateAllOffers productId env).map OfferItem.name = offerNames
    ∧ List.Forall₂ (fun (o : OfferItem) (ps : OfferDef × OfferDef) =>
        o.name = ps.1.name ∧ o.link ≠ ""
        ∧ o.link = jsOrD (offerAttempt env ps.1.url ps.2.url) ps.1.url
        ∧ o.success = jsTruthy (offerAttempt env ps.1.url ps.2.url))
        (Routes.generateAllOffers productId env)
        ((offersPrimary productId).zip (Routes.offersSecondary productId))
    ∧ List.Forall₂ (fun (o : OfferItem) (ps : OfferDef × String) =>
        o.name = ps.1.name ∧ o.link ≠ ""
        ∧ o.link = jsOrD (offerAttempt env ps.1.url ps.2) ps.1.url
        ∧ o.success = jsTruthy (offerAttempt env ps.1.url ps.2))
        (Part006.generateAllOffers productId env)
        ((offersPrimary productId).zip (Part006.offersSecondary productId)) := by
  refine ⟨rfl, rfl, ?_, ?_⟩
  · show List.Forall₂ _
      ((((offersPrimary productId).zip (Routes.offersSecondary productId)).map
        (fun ps => runOffer env ps.1 ps.2.url)).map Prod.fst) _
    rw [List.map_map, List.forall₂_map_left_iff]
    refine List.forall₂_same.mpr ?_
    intro ps hps
    have hp : ps.1.url ≠ "" :=
      offersPrimary_url_ne_empty productId ps.1 (List.of_mem_zip (a := ps.1) (b := ps.2) (by simpa using hps)).1
    refine ⟨rfl, jsOrD_ne_empty _ hp, rfl, rfl⟩
  · show List.Forall₂ _
      ((((offersPrimary productId).zip (Part006.offersSecondary productId)).map
        (fun ps => runOffer env ps.1 ps.2)).map Prod.fst) _
    rw [List.map_map, List.forall₂_map_left_iff]
    refine List.forall₂_same.mpr ?_
    intro ps hps
    have hp : ps.1.url ≠ "" :=
      offersPrimary_url_ne_empty productId ps.1 (List.of_mem_zip (a := ps.1) (b := ps.2) (by simpa using hps)).1
    refine ⟨rfl, jsOrD_ne_empty _ hp, rfl, rfl⟩

/-- C5: positionally for each of the 8 offer shapes of the richer variant:
the secondary URL is the share-redirect wrapper around the same primary
target; exactly one primary attempt is made first and a secondary attempt
is made if and only if the primary attempt yields no (truthy) link; when
both attempts fail the offer is still recorded as
`{name, link: primary target URL, success: false}`; and the loop records
all eight offers in order, never aborting or skipping. -/
theorem c5_offer_retry (productId : String) (env : String → LinkNet) (i : Nat) (h : i < 8) :
    (Routes.offersSecondary productId).getD i ⟨"", ""⟩ =
      ⟨((offersPrimary productId).getD i ⟨"", ""⟩).name,
        "https://star.aliexpress.com/share/share.htm?redirectUrl="
          ++ ((offersPrimary productId).getD i ⟨"", ""⟩).url⟩
    ∧ (runOffer env ((offersPrimary productId).getD i ⟨"", ""⟩)
        (((Routes.offersSecondary productId).getD i ⟨"", ""⟩).url)).2 =
      (if jsTruthy (generateAffiliateLink (env ((offersPrimary productId).getD i ⟨"", ""⟩).url))
       then [((offersPrimary productId).getD i ⟨"", ""⟩).url]
       else [((offersPrimary productId).getD i ⟨"", ""⟩).url,
             ((Routes.offersSecondary productId).getD i ⟨"", ""⟩).url])
    ∧ (jsTruthy (generateAffiliateLink (env ((offersPrimary productId).getD i ⟨"", ""⟩).url)) = false →
       jsTruthy (generateAffiliateLink (env ((Routes.offersSecondary productId).getD i ⟨"", ""⟩).url)) = false →
       (runOffer env ((offersPrimary productId).getD i ⟨"", ""⟩)
          (((Routes.offersSecondary productId).getD i ⟨"", ""⟩).url)).1 =
        ⟨((offersPrimary productId).getD i ⟨"", ""⟩).name,
         ((offersPrimary productId).getD i ⟨"", ""⟩).url, false⟩)
    ∧ (Routes.generateAllOffers productId env).getD i ⟨"", "", false⟩ =
        (runOffer env ((offersPrimary productId).getD i ⟨"", ""⟩)
          (((Routes.offersSecondary productId).getD i ⟨"", ""⟩).url)).1
    ∧ (Routes.generateAllOffers productId env).length = 8 := by
  interval_cases i <;>
    refine ⟨?_, rfl, ?_, rfl, rfl⟩ <;>
    first
    | (apply congrArg (OfferDef.mk _); apply String.ext;
       simp [offersPrimary, Routes.offersSecondary, String.data_append])
    | (intro h1 h2;
       simp only [offersPrimary, Routes.offersSecondary, List.getD_cons_zero,
         List.getD_cons_succ] at h1 h2 ⊢;
       simp [runOffer, offerAttempt, jsOrD, h1, h2])

/-- C5 witness at offer index 0 with every upstream call failing. -/
theorem c5_offer_retry_witness :
    (Routes.generateAllOffers "777" (fun _ => LinkNet.exn)).getD 0 ⟨"", "", false⟩ =
      ⟨"Coin Page Offer",
       "https://m.aliexpress.com/p/coin-index/index.html?_immersiveMode=true&productIds=777",
       false⟩ := by
  have h := c5_offer_retry "777" (fun _ => LinkNet.exn) 0 (by norm_num)
  rw [h.2.2.2.1, h.2.2.1 (by decide) (by decide)]
  decide

/-- C2: once the validation gate passes and a product id is extracted, the
handler returns 200 with a full `ProductResponse`, for every outcome of
the redirect resolution, the product-detail API call, the scrape and all
affiliate-link calls. -/
theorem c2_handler_always_200 (req : ProductRequest) (env : Routes.Env)
    (hurl : req.url ≠ "")
    (hk : req.appKey ≠ "") (hs : req.appSecret ≠ "") (ht : req.trackingId ≠ "")
    (hdom : (containsStr req.url "aliexpress.com" || containsStr req.url "alix.live"
      || containsStr req.url "s.click.aliexpress.com") = true)
    (hpid : jsTruthy (jsOrOpt (Routes.extractProductId (Routes.resolveRedirectsT env.redirect req.url).1)
      (Routes.extractProductId req.url)) = true) :
    (Routes.handleProduct req env).1.status = 200
    ∧ ∃ body, (Routes.handleProduct req env).1 = Routes.HResp.ok body := by
  have hcond : (!containsStr req.url "aliexpress.com" && !containsStr req.url "alix.live"
      && !containsStr req.url "s.click.aliexpress.com") = false := by
    simp only [Bool.or_eq_true] at hdom
    rcases hdom with (h | h) | h <;> simp [h]
  have hb2 : (req.appKey = "" || req.appSecret = "" || req.trackingId = "") = false := by
    simp [hk, hs, ht]
  simp only [Routes.handleProduct]
  rw [if_neg hurl, hb2, hcond, hpid]
  constructor <;> simp [Routes.HResp.status]

/-- C2 witness: a canonical item URL with every upstream call failing. -/
theorem c2_handler_always_200_witness :
    (Routes.handleProduct reqCanonical Routes.envAllFail).1.status = 200 := by
  exact (c2_handler_always_200 reqCanonical Routes.envAllFail (by decide) (by decide)
    (by decide) (by decide) (by decide) (by decide)).1

/-- C4: a request that fails the validation gate (empty URL, missing
credential, or no recognized domain substring) receives exactly the 400
response the gate selects and no upstream network call is made. -/
theorem c4_validation_gate (req : ProductRequest) (env : Routes.Env)
    (h : req.url = "" ∨ req.appKey = "" ∨ req.appSecret = "" ∨ req.trackingId = ""
      ∨ (containsStr req.url "aliexpress.com" = false
        ∧ containsStr req.url "alix.live" = false
        ∧ containsStr req.url "s.click.aliexpress.com" = false)) :
    (Routes.handleProduct req env).1 = Routes.HResp.badRequest (Routes.validationMessage req)
    ∧ (Routes.handleProduct req env).2 = []
    ∧ (Routes.handleProduct req env).1.status = 400 := by
  unfold Routes.handleProduct Routes.validationMessage
  by_cases h1 : req.url = ""
  · simp [h1, Routes.HResp.status]
  by_cases h2 : req.appKey = ""
  · simp [h1, h2, Routes.HResp.status]
  by_cases h3 : req.appSecret = ""
  · simp [h1, h2, h3, Routes.HResp.status]
  by_cases h4 : req.trackingId = ""
  · simp [h1, h2, h3, h4, Routes.HResp.status]
  have hdom := h.resolve_left h1 |>.resolve_left h2 |>.resolve_left h3 |>.resolve_left h4
  simp [h1, h2, h3, h4, hdom.1, hdom.2.1, hdom.2.2, Routes.HResp.status]

/-- the documented invalid-domain request. -/
def reqInvalidDomain : ProductRequest :=
  { url := "https://example.com/foo", appKey := "k", appSecret := "s", trackingId := "tid" }

/-- C4 witness: the documented invalid-domain scenario
`url = "https://example.com/foo"` with credentials present. -/
theorem c4_validation_gate_witness :
    (Routes.handleProduct reqInvalidDomain Routes.envAllFail).1 =
      Routes.HResp.badRequest "Please provide a valid AliExpress URL"
    ∧ (Routes.handleProduct reqInvalidDomain Routes.envAllFail).2 = [] := by
  have h := c4_validation_gate reqInvalidDomain Routes.envAllFail
    (Or.inr (Or.inr (Or.inr (Or.inr ⟨by decide, by decide, by decide⟩))))
  exact ⟨h.1.trans (by decide), h.2.1⟩

/-! ## Order and lookup lemmas for the signature claim -/

theorem lexLe_total : ∀ a b, lexLe a b = true ∨ lexLe b a = true
  | [], _ => Or.inl rfl
  | _ :: _, [] => Or.inr rfl
  | a :: as, b :: bs => by
    simp only [lexLe]
    rcases Nat.lt_trichotomy a.toNat b.toNat with h | h | h
    · left; simp [h]
    · have h1 : ¬ a.toNat < b.toNat := by omega
      have h2 : ¬ b.toNat < a.toNat := by omega
      simpa [h1, h2] using lexLe_total as bs
    · right; simp [h, Nat.lt_asymm h]

theorem lookup_cons (k k1 v1 : String) (t : List (String × String)) :
    List.lookup k ((k1, v1) :: t) = if k == k1 then some v1 else List.lookup k t := by
  show (match k == k1 with | true => some v1 | false => List.lookup k t) = _
  cases k == k1 <;> simp

theorem lexLe_trans : ∀ {a b c}, lexLe a b = true → lexLe b c = true → lexLe a c = true
  | [], _, _, _, _ => rfl
  | _ :: _, [], _, h, _ => by simp [lexLe] at h
  | _ :: _, _ :: _, [], _, h => by simp [lexLe] at h
  | a :: as, b :: bs, c :: cs, h1, h2 => by
    unfold lexLe at h1 h2 ⊢
    rcases Nat.lt_trichotomy a.toNat b.toNat with hab | hab | hab <;>
      rcases Nat.lt_trichotomy b.toNat c.toNat with hbc | hbc | hbc
    · rw [if_pos (by omega)]
    · rw [if_pos (by omega)]
    · rw [if_neg (by omega), if_pos hbc] at h2
      exact absurd h2 (by simp)
    · rw [if_pos (by omega)]
    · rw [if_neg (by omega), if_neg (by omega)] at h1 h2 ⊢
      exact lexLe_trans h1 h2
    · rw [if_neg (by omega), if_pos hbc] at h2
      exact absurd h2 (by simp)
    · rw [if_neg (by omega), if_pos hab] at h1
      exact absurd h1 (by simp)
    · rw [if_neg (by omega), if_pos hab] at h1
      exact absurd h1 (by simp)
    · rw [if_neg (by omega), if_pos hab] at h1
      exact absurd h1 (by simp)

theorem lexLe_antisymm : ∀ {a b}, lexLe a b = true → lexLe b a = true → a = b
  | [], [], _, _ => rfl
  | [], _ :: _, _, h => by simp [lexLe] at h
  | _ :: _, [], h, _ => by simp [lexLe] at h
  | a :: as, b :: bs, h1, h2 => by
    unfold lexLe at h1 h2
    rcases Nat.lt_trichotomy a.toNat b.toNat with hab | hab | hab
    · rw [if_neg (by omega), if_pos hab] at h2
      exact absurd h2 (by simp)
    · rw [if_neg (by omega), if_neg (by omega)] at h1 h2
      have hc : a = b := Char.eq_of_val_eq (UInt32.toNat.inj hab)
      rw [hc, lexLe_antisymm h1 h2]
    · rw [if_neg (by omega), if_pos hab] at h1
      exact absurd h1 (by simp)

instance : IsTotal String (fun a b => strLe a b = true) :=
  ⟨fun a b => lexLe_total a.toList b.toList⟩

instance : IsTrans String (fun a b => strLe a b = true) :=
  ⟨fun _ _ _ h1 h2 => lexLe_trans h1 h2⟩

instance : IsAntisymm String (fun a b => strLe a b = true) :=
  ⟨fun _ _ h1 h2 => String.ext (lexLe_antisymm h1 h2)⟩

instance : IsTotal (String × String) (fun a b => strLe a.1 b.1 = true) :=
  ⟨fun a b => lexLe_total a.1.toList b.1.toList⟩

instance : IsTrans (String × String) (fun a b => strLe a.1 b.1 = true) :=
  ⟨fun _ _ _ h1 h2 => lexLe_trans h1 h2⟩

/-- a JS object has unique keys, so a lookup is invariant under
permutation of the entry list. -/
theorem lookup_eq_of_perm {l1 l2 : List (String × String)} (h : l1.Perm l2) :
    ∀ k : String, (l1.map Prod.fst).Nodup → l1.lookup k = l2.lookup k := by
  induction h with
  | nil => intro k _; rfl
  | cons x h ih =>
    intro k nd
    obtain ⟨k1, v1⟩ := x
    simp only [List.map_cons, List.nodup_cons] at nd
    rw [lookup_cons, lookup_cons]
    cases hk : k == k1
    · simp only [Bool.false_eq_true, if_neg]
      exact ih k nd.2
    · rfl
  | swap x y l =>
    intro k nd
    obtain ⟨k1, v1⟩ := x
    obtain ⟨k2, v2⟩ := y
    simp only [List.map_cons, List.nodup_cons, List.mem_cons] at nd
    have hne : k2 ≠ k1 := fun he => nd.1 (Or.inl he)
    rw [lookup_cons, lookup_cons, lookup_cons, lookup_cons]
    by_cases hk2 : k = k2 <;> by_cases hk1 : k = k1
    · exact absurd (hk2.symm.trans hk1) hne
    · simp [hk2, hk1, hne]
    · simp [hk2, hk1]
      exact fun he => absurd he.symm hne
    · simp [hk2, hk1]
  | trans h1 h2 ih1 ih2 =>
    intro k nd
    rw [ih1 k nd, ih2 k (((h1.map Prod.fst).nodup_iff).mp nd)]

/-- with unique keys, a lookup of a member key yields that member value. -/
theorem lookup_eq_some_of_mem :
    ∀ {l : List (String × String)}, (l.map Prod.fst).Nodup →
      ∀ {kv : String × String}, kv ∈ l → l.lookup kv.1 = some kv.2
  | [], _, _, h => absurd h (List.not_mem_nil _)
  | (k1, v1) :: t, nd, kv, h => by
    simp only [List.map_cons, List.nodup_cons] at nd
    rw [lookup_cons]
    rcases List.mem_cons.mp h with he | ht
    · subst he
      simp
    · by_cases hk : kv.1 = k1
      · exact absurd (hk ▸ List.mem_map_of_mem Prod.fst ht) nd.1
      · rw [if_neg (by simpa using hk)]
        exact lookup_eq_some_of_mem nd.2 ht

/-- the specification-level canonicalization: sort the parameter entries
lexicographically by key and concatenate `key ++ value` in that order
(stated from the spec's words, for comparison with the implementation,
which sorts the key list and looks each key up). -/
def sortedKeyValueConcat (params : List (String × String)) : String :=
  String.join ((List.insertionSort (fun a b => strLe a.1 b.1 = true) params).map
    (fun kv => kv.1 ++ kv.2))

theorem map_fst_sortPairs (params : List (String × String)) :
    (List.insertionSort (fun a b => strLe a.1 b.1 = true) params).map Prod.fst
      = (params.map Prod.fst).insertionSort (fun a b => strLe a b = true) := by
  apply List.eq_of_perm_of_sorted (r := fun a b => strLe a b = true)
  · exact (((List.perm_insertionSort _ _).map Prod.fst).trans
      (List.perm_insertionSort _ _).symm)
  · exact List.Pairwise.map Prod.fst (fun _ _ h => h)
      (List.sorted_insertionSort (fun (a b : String × String) => strLe a.1 b.1 = true) params)
  · exact List.sorted_insertionSort _ _

theorem paramString_eq_spec (params : List (String × String))
    (nd : (params.map Prod.fst).Nodup) :
    String.join (((params.map Prod.fst).insertionSort (fun a b => strLe a b = true)).map
      (fun k => k ++ ((params.lookup k).getD ""))) = sortedKeyValueConcat params := by
  unfold sortedKeyValueConcat
  rw [← map_fst_sortPairs, List.map_map]
  apply congrArg
  apply List.map_congr_left
  intro kv hkv
  have hmem : kv ∈ params := ((List.perm_insertionSort _ _).mem_iff).mp hkv
  show kv.1 ++ (List.lookup kv.1 params).getD "" = kv.1 ++ kv.2
  rw [lookup_eq_some_of_mem nd hmem]
  rfl

/-- C3: `generateApiSignature` is the uppercase hex rendering of the
HMAC-SHA256 digest, keyed by the secret, of the concatenation of
`key ++ value` over the lexicographically sorted keys; in particular two
parameter objects that are equal as key-value mappings (permutations with
unique keys) produce the same signature, and the function is a pure
function of its two arguments. -/
theorem c3_signature_deterministic (params1 params2 : List (String × String)) (secret : String)
    (hperm : params1.Perm params2) (nd : (params1.map Prod.fst).Nodup) :
    generateApiSignature params1 secret = generateApiSignature params2 secret
    ∧ generateApiSignature params1 secret =
      Sha256.hexUpper (Sha256.hmacSha256 (Sha256.utf8 secret)
        (Sha256.utf8 (sortedKeyValueConcat params1))) := by
  have hkeys : (params1.map Prod.fst).insertionSort (fun a b => strLe a b = true)
      = (params2.map Prod.fst).insertionSort (fun a b => strLe a b = true) := by
    apply List.eq_of_perm_of_sorted (r := fun a b => strLe a b = true)
    · exact (List.perm_insertionSort _ _).trans
        ((hperm.map Prod.fst).trans (List.perm_insertionSort _ _).symm)
    · exact List.sorted_insertionSort _ _
    · exact List.sorted_insertionSort _ _
  constructor
  · have hmapeq : ((params1.map Prod.fst).insertionSort (fun a b => strLe a b = true)).map
        (fun k => k ++ ((params1.lookup k).getD ""))
      = ((params2.map Prod.fst).insertionSort (fun a b => strLe a b = true)).map
        (fun k => k ++ ((params2.lookup k).getD "")) := by
      rw [hkeys]
      apply List.map_congr_left
      intro k _
      rw [lookup_eq_of_perm hperm k nd]
    simp only [generateApiSignature]
    rw [hmapeq]
  · simp only [generateApiSignature]
    rw [paramString_eq_spec params1 nd]

/-- C3 witness: the documented determinism scenario
`{b:"2", a:"1"}` versus `{a:"1", b:"2"}`. -/
theorem c3_signature_deterministic_witness :
    generateApiSignature [("b", "2"), ("a", "1")] "secret"
      = generateApiSignature [("a", "1"), ("b", "2")] "secret" :=
  (c3_signature_deterministic [("b", "2"), ("a", "1")] [("a", "1"), ("b", "2")] "secret"
    (by decide) (by decide)).1

/-- golden value computed independently (HMAC-SHA256 of `a1b2` with key
`secret`, uppercase hex). -/
theorem generateApiSignature_golden :
    generateApiSignature [("b", "2"), ("a", "1")] "secret"
      = "3A9F9E53162A24430830CCA87B7FB623401B81EB6616A6EA75B3614AEBDC7F4D" := by decide

/-! ## The scrape backfill pass (C6) -/

/-- full characterization of the richer variant's merge pass: title
replaced exactly when empty or one of the two placeholders, image
replaced exactly when `null` (the accumulated `imageUrl` is never
`some ""`, which the hypothesis records), and every other field kept. -/
theorem mergeScrapeR_spec (pd : Routes.ProductData) (sd : Routes.ScrapeResult)
    (h : pd.imageUrl ≠ some "") :
    Routes.mergeScrape pd sd = { pd with
      title := if pd.title = "" || pd.title = "Unknown Product"
          || pd.title = "Unable to extract title" then sd.title else pd.title
      imageUrl := if pd.imageUrl = none then sd.imageUrl else pd.imageUrl } := by
  unfold Routes.mergeScrape
  obtain ⟨t, pr, op, di, st, ev, sh, ca, co, oo, im, sf⟩ := pd
  rcases im with _ | s
  · split <;> simp [jsTruthy]
  · have hs : s ≠ "" := fun he => h (by simp [he])
    split <;> simp [jsTruthy, hs]

/-- full characterization of the simpler variant's merge pass: its title
condition checks only the empty string and `"Unknown Product"`. -/
theorem mergeScrapeP_spec (pd : Part006.ProductData) (sd : Part006.ScrapeResult)
    (h : pd.imageUrl ≠ some "") :
    Part006.mergeScrape pd sd = { pd with
      title := if pd.title = "" || pd.title = "Unknown Product" then sd.title else pd.title
      imageUrl := if pd.imageUrl = none then sd.imageUrl else pd.imageUrl } := by
  unfold Part006.mergeScrape
  obtain ⟨t, pr, op, di, st, im⟩ := pd
  rcases im with _ | s
  · split <;> simp [jsTruthy]
  · have hs : s ≠ "" := fun he => h (by simp [he])
    split <;> simp [jsTruthy, hs]

/-- C6 counterexample: in the simpler variant a title equal to the
placeholder `"Unable to extract title"` is NOT replaced by the scraped
title, contradicting the claimed if-and-only-if condition. -/
theorem c6_counterexample :
    (Part006.mergeScrape
        { title := "Unable to extract title", price := "N/A", originalPrice := "N/A",
          discount := "0%", storeName := "Unknown Store", imageUrl := none }
        ⟨"Scraped Title", none⟩).title = "Unable to extract title"
    ∧ "Unable to extract title" ≠ "Scraped Title" := by decide

/-- C6 (amended): the scrape backfill pass of each variant touches only
`title` and `imageUrl`; the richer variant replaces the title exactly when
it is empty, `"Unknown Product"` or `"Unable to extract title"`, the
simpler variant exactly when it is empty or `"Unknown Product"`; the image
is replaced exactly when it is `null` (the accumulated image is never
`some ""`); every other metadata field is kept unchanged. -/
theorem c6_scrape_backfill (rpd : Routes.ProductData) (rsd : Routes.ScrapeResult)
    (ppd : Part006.ProductData) (psd : Part006.ScrapeResult)
    (h1 : rpd.imageUrl ≠ some "") (h2 : ppd.imageUrl ≠ some "") :
    Routes.mergeScrape rpd rsd = { rpd with
      title := if rpd.title = "" || rpd.title = "Unknown Product"
          || rpd.title = "Unable to extract title" then rsd.title else rpd.title
      imageUrl := if rpd.imageUrl = none then rsd.imageUrl else rpd.imageUrl }
    ∧ Part006.mergeScrape ppd psd = { ppd with
      title := if ppd.title = "" || ppd.title = "Unknown Product" then psd.title else ppd.title
      imageUrl := if ppd.imageUrl = none then psd.imageUrl else ppd.imageUrl } :=
  ⟨mergeScrapeR_spec rpd rsd h1, mergeScrapeP_spec ppd psd h2⟩

/-- C6 witness: placeholder metadata with a successful scrape. -/
theorem c6_scrape_backfill_witness :
    Routes.mergeScrape Routes.defaultProductData ⟨"Scraped Title", some "https://img"⟩ =
      { Routes.defaultProductData with title := "Scraped Title", imageUrl := some "https://img" } := by
  have h := (c6_scrape_backfill Routes.defaultProductData ⟨"Scraped Title", some "https://img"⟩
    { title := "", price := "N/A", originalPrice := "N/A", discount := "0%",
      storeName := "Unknown Store", imageUrl := none } ⟨"x", none⟩
    (by decide) (by decide)).1
  rw [h]
  decide

/-! ## The discount computation (C7) -/

theorem jsOrD_of_falsy {a : Option String} (h : jsTruthy a = false) (b : String) :
    jsOrD a b = b := by
  unfold jsOrD
  rw [h]
  simp

/-- C7: with no upstream discount field and both prices present, the
discount is `(original - sale) / original * 100` rendered by `toFixed(1)`
(`toFixed(0)` in the simpler variant) with `"%"` appended, and the
division is guarded: an `"N/A"` price, a failed parse, or a non-positive
parsed price skips the computation and the discount falls back to the
`"0%"` default. -/
theorem c7_discount_computation :
    (∀ (td : Option String) (orig sale : String) (o s : Frac), jsTruthy td = false →
      orig ≠ "N/A" → sale ≠ "N/A" →
      parseCleaned (cleanNum orig) = some o → parseCleaned (cleanNum sale) = some s →
      o.isPos = true → s.isPos = true →
      Routes.computeDiscount td orig sale
        = toFixed1 (((o.sub s).div o).mul (Frac.ofNat 100)) ++ "%")
    ∧ Routes.computeDiscount none "$40.00 USD" "$20.00 USD" = "50.0%"
    ∧ Part006.computeDiscount none "$40.00 USD" "$20.00 USD" = "50%"
    ∧ (∀ (td : Option String) (orig sale : String), jsTruthy td = false →
        (orig = "N/A" ∨ sale = "N/A") →
        jsOrS (Routes.computeDiscount td orig sale) "0%" = "0%")
    ∧ (∀ (td : Option String) (orig sale : String), jsTruthy td = false →
        (parseCleaned (cleanNum orig) = none ∨ parseCleaned (cleanNum sale) = none) →
        jsOrS (Routes.computeDiscount td orig sale) "0%" = "0%")
    ∧ (∀ (td : Option String) (orig sale : String) (o s : Frac), jsTruthy td = false →
        parseCleaned (cleanNum orig) = some o → parseCleaned (cleanNum sale) = some s →
        (o.isPos = false ∨ s.isPos = false) →
        jsOrS (Routes.computeDiscount td orig sale) "0%" = "0%") := by
  refine ⟨?_, by decide, by decide, ?_, ?_, ?_⟩
  · intro td orig sale o s htd ho hs hpo hps hop hsp
    unfold Routes.computeDiscount
    rw [jsOrD_of_falsy htd]
    rw [if_pos (by simp [bne, ho, hs])]
    rw [hpo, hps]
    simp [hop, hsp]
  · intro td orig sale htd hna
    unfold Routes.computeDiscount
    rw [jsOrD_of_falsy htd]
    rw [if_neg (by rcases hna with h | h <;> simp [bne, h])]
    simp [jsOrS]
  · intro td orig sale htd hpn
    unfold Routes.computeDiscount
    rw [jsOrD_of_falsy htd]
    by_cases hna : orig = "N/A" ∨ sale = "N/A"
    · rw [if_neg (by rcases hna with h | h <;> simp [bne, h])]
      simp [jsOrS]
    · push_neg at hna
      rw [if_pos (by simp [bne, hna.1, hna.2])]
      rcases hpn with h | h
      · rw [h]
        cases parseCleaned (cleanNum sale) <;> simp [jsOrS]
      · rw [h]
        cases parseCleaned (cleanNum orig) <;> simp [jsOrS]
  · intro td orig sale o s htd hpo hps hnp
    unfold Routes.computeDiscount
    rw [jsOrD_of_falsy htd]
    by_cases hna : orig = "N/A" ∨ sale = "N/A"
    · rw [if_neg (by rcases hna with h | h <;> simp [bne, h])]
      simp [jsOrS]
    · push_neg at hna
      rw [if_pos (by simp [bne, hna.1, hna.2])]
      rw [hpo, hps]
      dsimp only
      rw [if_neg (by rcases hnp with h | h <;> simp [h])]
      simp [jsOrS]

/-- C7 witness: the general formula applied to `$10.00`/`$5.00`. -/
theorem c7_discount_computation_witness :
    Routes.computeDiscount none "$10.00 USD" "$5.00 USD" = "50.0%" := by
  have h := c7_discount_computation.1 none "$10.00 USD" "$5.00 USD" ⟨1000, 100⟩ ⟨500, 100⟩
    (by decide) (by decide) (by decide) (by decide) (by decide) (by decide) (by decide)
  exact h.trans (by decide)

/-! ## The numeric fallback of product-id extraction (C8) -/

/-- C8: whenever none of the ordered URL patterns matches the selected
target URL, `extractProductId` returns exactly the first standalone
10–20-digit run of the whole raw text (the leftmost `\b\d{10,20}\b`
match), and `null` when there is none; and a request that passes
validation but yields no product id from either the resolved or the raw
URL receives the could-not-extract 400. -/
theorem c8_numeric_fallback :
    (∀ text : String,
      (∀ p ∈ Routes.urlPatterns, firstMatch p (Routes.targetUrlOf text) = none) →
      Routes.extractProductId text
        = (firstMatch numericFallbackRe text.toList).map (fun m => (⟨m.full⟩ : String)))
    ∧ (∀ (req : ProductRequest) (env : Routes.Env), req.url ≠ "" →
        req.appKey ≠ "" → req.appSecret ≠ "" → req.trackingId ≠ "" →
        (containsStr req.url "aliexpress.com" || containsStr req.url "alix.live"
          || containsStr req.url "s.click.aliexpress.com") = true →
        jsTruthy (jsOrOpt (Routes.extractProductId (Routes.resolveRedirectsT env.redirect req.url).1)
          (Routes.extractProductId req.url)) = false →
        (Routes.handleProduct req env).1
          = Routes.HResp.badRequest "Could not extract product ID from URL") := by
  constructor
  · intro text h
    simp only [Routes.extractProductId]
    rw [List.findSome?_eq_none_iff.mpr h]
    cases hm : firstMatch numericFallbackRe text.toList <;> simp [hm]
  · intro req env hurl hk hs ht hdom hpid
    have hcond : (!containsStr req.url "aliexpress.com" && !containsStr req.url "alix.live"
        && !containsStr req.url "s.click.aliexpress.com") = false := by
      simp only [Bool.or_eq_true] at hdom
      rcases hdom with (h | h) | h <;> simp [h]
    have hb2 : (req.appKey = "" || req.appSecret = "" || req.trackingId = "") = false := by
      simp [hk, hs, ht]
    simp only [Routes.handleProduct]
    rw [if_neg hurl, hb2, hcond, hpid]
    simp

/-- C8 witness: a free-text input with a bare 14-digit run, and a request
whose URL passes validation but contains no extractable id. -/
theorem c8_numeric_fallback_witness :
    Routes.extractProductId "order id 12345678901234 thanks" = some "12345678901234"
    ∧ (Routes.handleProduct
        { url := "https://aliexpress.com/foobar", appKey := "k", appSecret := "s",
          trackingId := "tid" } Routes.envAllFail).1
      = Routes.HResp.badRequest "Could not extract product ID from URL" := by
  constructor
  · exact (c8_numeric_fallback.1 "order id 12345678901234 thanks" (by decide)).trans (by decide)
  · exact c8_numeric_fallback.2
      { url := "https://aliexpress.com/foobar", appKey := "k", appSecret := "s", trackingId := "tid" }
      Routes.envAllFail (by decide) (by decide) (by decide) (by decide) (by decide) (by decide)

/-! ## The two extractProductId variants (C9) -/

/-- C9 counterexample: on a bare 11-digit input the two variants disagree
(the richer variant's numeric fallback fires, the simpler variant has no
fallback), so they are not extensionally equal. -/
theorem c9_counterexample :
    Routes.extractProductId "12345678901" ≠ Part006.extractProductId "12345678901" := by decide

/-- C9 (amended): the two variants agree on canonical item URLs — both
extract the id — but they are not behavioral duplicates: an input that
only the richer variant's 10–20-digit numeric fallback resolves (a bare
digit run) yields the digits in the richer variant and `null` in the
simpler one. -/
theorem c9_extract_variants :
    Routes.extractProductId "https://www.aliexpress.com/item/1005006520824037.html"
      = some "1005006520824037"
    ∧ Part006.extractProductId "https://www.aliexpress.com/item/1005006520824037.html"
      = some "1005006520824037"
    ∧ Routes.extractProductId
        "https://m.aliexpress.com/p/coin-index/index.html?_immersiveMode=true&productIds=3256809876543210"
      = some "3256809876543210"
    ∧ Part006.extractProductId
        "https://m.aliexpress.com/p/coin-index/index.html?_immersiveMode=true&productIds=3256809876543210"
      = some "3256809876543210"
    ∧ Routes.extractProductId "12345678901" = some "12345678901"
    ∧ Part006.extractProductId "12345678901" = none := by
  refine ⟨by decide, by decide, by decide, by decide, by decide, by decide⟩

/-! ## Totality of the scrape fetcher (C10) -/

/-- the richer variant's scraped title is never empty: every path ends in
`title || "AliExpress Product"`. -/
theorem scrapeTitleR_ne_empty (net : Routes.ScrapeNet) :
    (Routes.getProductDetails net).title ≠ "" := by
  cases net with
  | exn => decide
  | page t i => exact jsOrS_ne_empty (by decide)

/-- the merge pass preserves non-emptiness of the title when the scraped
title is non-empty. -/
theorem mergeScrapeR_title_ne_empty (pd : Routes.ProductData) (sd : Routes.ScrapeResult)
    (hsd : sd.title ≠ "") : (Routes.mergeScrape pd sd).title ≠ "" := by
  unfold Routes.mergeScrape
  split
  · dsimp only
    split
    · exact hsd
    · exact hsd
  · rename_i hc
    simp only [Bool.or_eq_true, decide_eq_true_eq, not_or] at hc
    dsimp only
    split
    · exact hc.1.1
    · exact hc.1.1

/-- C10 counterexample: the simpler variant's scrape fetcher can return an
EMPTY title — a whitespace-only scraped subject survives the truthiness
test and is trimmed to `""` afterwards — refuting the claim that the title
of either variant is always a non-empty string. -/
theorem c10_counterexample :
    (Part006.getProductDetails (.page (some " ") "" none none)).title = "" := by decide

/-- C10 (amended): both scrape fetchers are total functions of the scrape
outcome and return their constant placeholder on an exception; the richer
variant's title is non-empty for EVERY outcome, and consequently every 200
response of the richer handler carries a non-empty title.  (The simpler
variant lacks this guarantee, per the counterexample.) -/
theorem c10_scrape_totality (rnet : Routes.ScrapeNet) (req : ProductRequest) (env : Routes.Env) :
    (Routes.getProductDetails rnet).title ≠ ""
    ∧ Routes.getProductDetails Routes.ScrapeNet.exn = ⟨"AliExpress Product", none⟩
    ∧ Part006.getProductDetails Part006.ScrapeNet.exn = ⟨"Unable to extract title", none⟩
    ∧ (Routes.handleProduct req env).1.titleNonempty = true := by
  refine ⟨scrapeTitleR_ne_empty rnet, rfl, rfl, ?_⟩
  simp only [Routes.handleProduct]
  split
  · rfl
  split
  · rfl
  split
  · rfl
  split
  · rfl
  · simp only [Routes.HResp.titleNonempty, decide_eq_true_eq]
    exact mergeScrapeR_title_ne_empty _ _ (scrapeTitleR_ne_empty env.scrape)
